import Mathlib

/-
  Verification of the koracle-frontend dashboard core logic
  (position-health and transaction-orchestration logic).

  The definitions below are a shallow embedding of the TypeScript source in
  src/unnamed/part_003 (the Dashboard component) and src/unnamed/part_000
  (contract constants).  All on-chain quantities in the source are JavaScript
  bigints holding uint256 values, hence non-negative; they are embedded as ℕ,
  on which `/` is truncating division exactly as bigint `/` is on non-negative
  operands.  The one lossy step in the source — converting a bigint to a JS
  `Number` before dividing by 1e18 for display — is embedded as the exact
  rational value (the double rounding of at most one ulp is abstracted away;
  every bigint arising here is finite, so the `!isFinite` branch of the
  source bounds check can only be taken by the `> 1000` clamp, which is kept).
-/

namespace Koracle

/-- ORACLE_PRICE_SCALE = 10n ** 36n (src/unnamed/part_003 line 33). -/
def ORACLE_PRICE_SCALE : ℕ := 10 ^ 36

/-- WAD = 10n ** 18n (src/unnamed/part_003 line 34). -/
def WAD : ℕ := 10 ^ 18

/-- LLTV = 920000000000000000n, i.e. 92% (src/unnamed/part_000 line 18). -/
def LLTV : ℕ := 920000000000000000

/-- MarketSelection type (src/unnamed/part_003 line 9); `null` is embedded as
`Option MarketSelection`. -/
inductive MarketSelection
  | UPETH
  | UPKRW
  | UPETH_BORROW
deriving DecidableEq, Repr

/-- ActionMode type (src/unnamed/part_003 line 10). -/
inductive ActionMode
  | supply
  | withdraw
deriving DecidableEq, Repr

/-- TxStep type (src/unnamed/part_003 line 12). -/
inductive TxStep
  | idle
  | approving
  | approved
  | supplying_collateral
  | collateral_supplied
  | borrowing
  | executing
deriving DecidableEq, Repr

/-- Execution status (src/unnamed/part_003 line 69). -/
inductive ExecutionStatus
  | idle
  | broadcasting
  | confirmed
deriving DecidableEq, Repr

/-- Liquidation transaction step (src/unnamed/part_003 line 98). -/
inductive LiquidateTxStep
  | idle
  | approving
  | liquidating
  | success
deriving DecidableEq, Repr

/-- UserPosition interface (src/unnamed/part_003 lines 14-20).  The raw share
and collateral balances are bigints; supplyAssets and borrowAssets are display
numbers, embedded as exact rationals. -/
structure UserPosition where
  supplyShares : ℕ
  borrowShares : ℕ
  collateral : ℕ
  supplyAssets : ℚ
  borrowAssets : ℚ
deriving DecidableEq, Repr

/-- The four market totals returned by market(id)
(src/unnamed/part_003 lines 312-315: marketData[0] .. marketData[3]). -/
structure MarketSnapshot where
  totalSupplyAssets : ℕ
  totalSupplyShares : ℕ
  totalBorrowAssets : ℕ
  totalBorrowShares : ℕ
deriving DecidableEq, Repr

/-- Bounds check applied to a computed health factor
(src/unnamed/part_003 lines 348-350 and 583-585):
`if (!isFinite(hf) || hf > 1000) hf = 1000; if (hf < 0) hf = 0`.
In the exact-rational embedding every value is finite, so the non-finite
disjunct is vacuous. -/
def clampHF (hf : ℚ) : ℚ :=
  if 1000 < hf then 1000 else if hf < 0 then 0 else hf

/-- Position accounting effect (src/unnamed/part_003 lines 309-335): derives
supplyAssets and borrowAssets from raw shares and the market totals.  Each
side is `shares * totalAssets / totalShares` in bigint arithmetic, converted
to a display number by dividing by 1e18 last, and 0 when the total
shares are zero. -/
def updateUserPosition (supplyShares borrowShares collateral : ℕ)
    (m : MarketSnapshot) : UserPosition :=
  let supplyAssets : ℚ :=
    if 0 < m.totalSupplyShares then
      ((supplyShares * m.totalSupplyAssets / m.totalSupplyShares : ℕ) : ℚ) / (WAD : ℚ)
    else 0
  let borrowAssets : ℚ :=
    if 0 < m.totalBorrowShares then
      ((borrowShares * m.totalBorrowAssets / m.totalBorrowShares : ℕ) : ℚ) / (WAD : ℚ)
    else 0
  { supplyShares := supplyShares
    borrowShares := borrowShares
    collateral := collateral
    supplyAssets := supplyAssets
    borrowAssets := borrowAssets }

/-- The currentHF effect for the existing position
(src/unnamed/part_003 lines 338-358).  Guard: `oraclePrice` truthy (a bigint
is falsy exactly when it is 0n or undefined, both embedded as 0),
`userPosition.collateral > 0n`, and `userPosition.borrowAssets > 0` — the last
is a check on the floating display value, embedded as the Boolean
`borrowAssetsPositive`; the wei value `parseUnits(borrowAssets.toFixed(18), 18)`
is embedded as `borrowAssetsBigInt`.  Returns the value passed to setCurrentHF
(`none` embeds setCurrentHF(null)). -/
def currentHFUpdate (oraclePrice : ℕ) (collateral : ℕ)
    (borrowAssetsPositive : Bool) (borrowAssetsBigInt : ℕ) (lltv : ℕ) : Option ℚ :=
  if oraclePrice ≠ 0 ∧ 0 < collateral ∧ borrowAssetsPositive = true then
    if 0 < borrowAssetsBigInt then
      let maxBorrow := collateral * oraclePrice * lltv / (ORACLE_PRICE_SCALE * WAD)
      let hfScaled := maxBorrow * WAD / borrowAssetsBigInt
      some (clampHF ((hfScaled : ℚ) / (WAD : ℚ)))
    else none
  else none

/-- calculateHealthFactor (src/unnamed/part_003 lines 562-588).  The source
takes the proposed extra borrow/collateral as display numbers and converts
them to wei with parseUnits(x.toFixed(18), 18); the embedding takes the wei
values directly (`newCollateralBigInt`, `newBorrowBigInt`), together with the
closed-over existing position (`userPosition.collateral` and the wei value of
`userPosition.borrowAssets`).  `if (!oraclePrice) return null` is the 0 case;
`totalBorrow <= 0n` and `totalCollateral <= 0n` are the 0 cases on ℕ. -/
def calculateHealthFactor (oraclePrice : ℕ)
    (existingCollateral existingBorrowBigInt newCollateralBigInt newBorrowBigInt : ℕ)
    (lltv : ℕ) : Option ℚ :=
  if oraclePrice = 0 then none
  else
    let totalCollateral := existingCollateral + newCollateralBigInt
    let totalBorrow := existingBorrowBigInt + newBorrowBigInt
    if totalBorrow = 0 then none
    else if totalCollateral = 0 then none
    else
      let maxBorrow := totalCollateral * oraclePrice * lltv / (ORACLE_PRICE_SCALE * WAD)
      let hfScaled := maxBorrow * WAD / totalBorrow
      some (clampHF ((hfScaled : ℚ) / (WAD : ℚ)))

/-- Modelled from the spec: the Health Factor formula as §4.2 steps 4-6 of the
specification state it, for comparison with the calculateHealthFactor of the code:
`maxBorrow = totalCollateral * oraclePrice * lltv / (ORACLE_SCALE * WAD)`,
`healthFactor = maxBorrow * WAD / totalBorrow / WAD` as a real number, with
results above 1000 clamped to 1000 and negative results clamped to 0. -/
def healthFactorFormulaSpec (totalCollateral totalBorrow oraclePrice lltv : ℕ) : ℚ :=
  let maxBorrow := totalCollateral * oraclePrice * lltv / (ORACLE_PRICE_SCALE * WAD)
  let hf : ℚ := ((maxBorrow * WAD / totalBorrow : ℕ) : ℚ) / (WAD : ℚ)
  if 1000 < hf then 1000 else if hf < 0 then 0 else hf

/-- The slice of component state read by isButtonDisabled, getMaxAmount and
getDisabledReason (src/unnamed/part_003 lines 60-108).  Text inputs are
embedded by their parsed numeric value: `inputAmount = none` embeds the empty
string (falsy, so `!inputAmount` holds); `collateralAmount = none` embeds the
empty collateral input.  Balances and the simulated health factor are display
numbers, embedded as rationals. -/
structure UIState where
  isConnected : Bool
  isTxPending : Bool
  txStep : TxStep
  executionStatus : ExecutionStatus
  selection : Option MarketSelection
  actionMode : ActionMode
  inputAmount : Option ℚ
  collateralAmount : Option ℚ
  simulatedHF : Option ℚ
  userPosition : UserPosition
  upethBalance : ℚ
  upkrwBalance : ℚ

/-- getMaxAmount (src/unnamed/part_003 lines 986-996). -/
def getMaxAmount (s : UIState) : ℚ :=
  match s.actionMode with
  | .withdraw =>
    match s.selection with
    | some .UPETH => s.userPosition.supplyAssets
    | some .UPKRW => (s.userPosition.collateral : ℚ) / (WAD : ℚ)
    | some .UPETH_BORROW => s.userPosition.borrowAssets
    | none => 0
  | .supply =>
    match s.selection with
    | some .UPETH => s.upethBalance
    | some .UPETH_BORROW => s.upethBalance
    | some .UPKRW => s.upkrwBalance
    | none => 0

/-- The check `collateralAmount && parseFloat(collateralAmount) > 0`
(src/unnamed/part_003 lines 950 and 977). -/
def hasNewCollateral (s : UIState) : Bool :=
  match s.collateralAmount with
  | some c => decide (0 < c)
  | none => false

/-- isButtonDisabled (src/unnamed/part_003 lines 931-955).  The only exit
returning false is the final fall-through; every guard before it returns
true.  The CRITICAL borrow gate is the block for selection UPETH_BORROW in
supply mode: it blocks when `simulatedHF !== null && simulatedHF < 1.0`, and
when there is neither existing nor newly entered collateral. -/
def isButtonDisabled (s : UIState) : Bool :=
  if !s.isConnected then true
  else if s.isTxPending then true
  else if s.txStep = .approving ∨ s.txStep = .supplying_collateral ∨
      s.txStep = .borrowing ∨ s.txStep = .executing then true
  else if s.executionStatus = .confirmed then true
  else
    match s.inputAmount with
    | none => true
    | some amount =>
      if amount ≤ 0 then true
      else if getMaxAmount s < amount then true
      else if s.selection = some .UPETH_BORROW ∧ s.actionMode = .supply then
        if (match s.simulatedHF with
            | some h => decide (h < 1)
            | none => false) then true
        else if s.userPosition.collateral = 0 ∧ hasNewCollateral s = false then true
        else false
      else false

/-- The session state carried by the repay flow between executeWithdraw and
executeAfterApprove: the isFullRepayRef flag, the approve call amount, and
the approvedCollateralRef buffer (src/unnamed/part_003 lines 749-764). -/
structure RepayInit where
  isFullRepay : Bool
  approveAmount : ℕ
  approvedAmount : ℕ
deriving DecidableEq, Repr

/-- The repay branch of executeWithdraw (src/unnamed/part_003 lines 749-764):
`isFullRepayRef.current = amount >= borrowAssetsWei`, the approve amount is
`amount + amount / 100n` for a full repay and `amount` otherwise, and
`approvedCollateralRef.current = amount`. -/
def startRepay (amount borrowAssetsWei : ℕ) : RepayInit :=
  let isFull := borrowAssetsWei ≤ amount
  { isFullRepay := isFull
    approveAmount := if isFull then amount + amount / 100 else amount
    approvedAmount := amount }

/-- The repay branch of executeAfterApprove (src/unnamed/part_003 lines
772-803): returns the (assets, shares) pair passed to the repay call, `none`
when the guard `amount === 0n` aborts without any call.  A full repay sends
`assets = 0, shares = borrowShares`; a partial repay sends
`assets = approvedAmount, shares = 0`. -/
def repayCallAfterApprove (flow : RepayInit) (borrowShares : ℕ) : Option (ℕ × ℕ) :=
  if flow.approvedAmount = 0 then none
  else if flow.isFullRepay then some (0, borrowShares)
  else some (flow.approvedAmount, 0)

/-- The orchestrator state mutated by the two error-handling effects
(src/unnamed/part_003 lines 197-227): step variables, the three ref-cell
pending buffers, and the user-visible error message. -/
structure OrchestratorState where
  txStep : TxStep
  executionStatus : ExecutionStatus
  liquidateTxStep : LiquidateTxStep
  approvedCollateral : ℕ
  borrowAmount : ℕ
  isFullRepay : Bool
  errorMessage : Option String
deriving DecidableEq, Repr

/-- The writeError effect (src/unnamed/part_003 lines 197-215): on any write
error it resets all step variables to idle, zeroes the three ref-cell
buffers, and sets a user-visible message chosen by whether the wallet
reported a user rejection. -/
def onWriteError (s : OrchestratorState) (userRejected : Bool) : OrchestratorState :=
  { s with
    txStep := .idle
    executionStatus := .idle
    liquidateTxStep := .idle
    approvedCollateral := 0
    borrowAmount := 0
    isFullRepay := false
    errorMessage := some (if userRejected then "Transaction cancelled" else "Transaction failed") }

/-- The isTxError effect (src/unnamed/part_003 lines 218-227): on a failed
receipt it resets the step variables to idle and sets an error message — the
three ref-cell buffers are left untouched. -/
def onTxError (s : OrchestratorState) : OrchestratorState :=
  { s with
    txStep := .idle
    executionStatus := .idle
    liquidateTxStep := .idle
    errorMessage := some "Transaction failed on chain" }

/-- Outcome of the collateral-withdrawal branch of executeWithdraw. -/
inductive WithdrawCollateralResult
  | errorDebtRemaining
  | errorNothingToWithdraw
  | errorHealthFactor
  | submitWithdraw (amount : ℕ)
deriving DecidableEq, Repr

/-- The UPKRW collateral-withdrawal branch of executeWithdraw
(src/unnamed/part_003 lines 682-748), evaluated against the freshly fetched
position (freshBorrowShares, freshCollateral).  `oraclePrice = 0` embeds an
unavailable or zero oracle read (falsy) and `market = none` an unavailable
marketData; when either is missing the health-factor pre-flight check is
skipped entirely.  The dust threshold is parseUnits(0.0001, 18) = 10^14. -/
def executeWithdrawCollateral (amount freshBorrowShares freshCollateral oraclePrice : ℕ)
    (market : Option MarketSnapshot) (lltv : ℕ) : WithdrawCollateralResult :=
  if 0 < freshBorrowShares ∧ freshCollateral ≤ amount then .errorDebtRemaining
  else
    let withdrawAmount := if freshCollateral < amount then freshCollateral else amount
    if withdrawAmount = 0 then .errorNothingToWithdraw
    else
      match market with
      | some m =>
        if 0 < freshBorrowShares ∧ 0 < oraclePrice then
          let borrowAssets := freshBorrowShares * m.totalBorrowAssets / m.totalBorrowShares
          if 10 ^ 14 < borrowAssets then
            let remainingCollateral := freshCollateral - withdrawAmount
            let maxBorrow := remainingCollateral * oraclePrice * lltv /
              (ORACLE_PRICE_SCALE * WAD)
            if maxBorrow < borrowAssets then .errorHealthFactor
            else .submitWithdraw withdrawAmount
          else .submitWithdraw withdrawAmount
        else .submitWithdraw withdrawAmount
      | none => .submitWithdraw withdrawAmount

/-- Outcome of executeLiquidationAfterApprove. -/
inductive LiquidationResult
  | errorNoPosition
  | errorNothingToSeize
  | submitLiquidate (seizedAssets : ℕ)
deriving DecidableEq, Repr

/-- executeLiquidationAfterApprove (src/unnamed/part_003 lines 447-493).
`liquidateAmount = none` embeds an empty input (the guard returns without
acting, as it does for a zero oracle price, embedded as the outer `none`
result).  `freshPosition` is the re-fetched borrower position as the pair
(borrowAssets in wei — the source round-trips the display number through
parseUnits(toString, 18) — , collateral).  The requested repay is clamped to
the debt, the seize amount is repay * ORACLE_PRICE_SCALE * 105 /
(oraclePrice * 100n) clamped to the collateral, a zero clamped seize aborts
with an error, and otherwise the submitted amount is seize * 95n / 100n. -/
def executeLiquidationAfterApprove (liquidateAmount : Option ℕ)
    (freshPosition : Option (ℕ × ℕ)) (oraclePrice : ℕ) : Option LiquidationResult :=
  match liquidateAmount with
  | none => none
  | some requestedRepay =>
    if oraclePrice = 0 then none
    else
      match freshPosition with
      | none => some .errorNoPosition
      | some (maxRepayAmount, freshCollateral) =>
        let repayAmount :=
          if maxRepayAmount < requestedRepay then maxRepayAmount else requestedRepay
        let liquidationIncentive := 105
        let seizeAmount0 :=
          repayAmount * ORACLE_PRICE_SCALE * liquidationIncentive / (oraclePrice * 100)
        let seizeAmount1 :=
          if freshCollateral < seizeAmount0 then freshCollateral else seizeAmount0
        if seizeAmount1 = 0 then some .errorNothingToSeize
        else some (.submitLiquidate (seizeAmount1 * 95 / 100))

/-- LiquidatablePosition interface (src/unnamed/part_003 lines 22-30). -/
structure LiquidatablePosition where
  borrower : String
  collateral : ℕ
  borrowShares : ℕ
  borrowAssets : ℚ
  healthFactor : ℚ
  maxSeizable : ℕ
  liquidationIncentive : ℚ
deriving DecidableEq, Repr

/-- checkBorrowerPosition (src/unnamed/part_003 lines 361-406).  The early
guard `!publicClient || !oraclePrice || !marketData || !borrowerAddress`
returns null; the publicClient presence is dropped (a missing client also
yields null), a falsy oracle price is 0 and a falsy address is the empty
string.  A borrower whose borrowShares are 0n yields null before any
computation; otherwise the record is built with borrowAssets and healthFactor
derived from the market totals, maxSeizable = collateral and a hard-coded
5 percent incentive (1.05). -/
def checkBorrowerPosition (oraclePrice : ℕ) (market : Option MarketSnapshot)
    (borrowerAddress : String) (borrowShares collateral : ℕ) (lltv : ℕ) :
    Option LiquidatablePosition :=
  if oraclePrice = 0 then none
  else
    match market with
    | none => none
    | some m =>
      if borrowerAddress = "" then none
      else if borrowShares = 0 then none
      else
        let borrowAssetsBigInt := borrowShares * m.totalBorrowAssets / m.totalBorrowShares
        let maxBorrow := collateral * oraclePrice * lltv / (ORACLE_PRICE_SCALE * WAD)
        let hfScaled := if 0 < borrowAssetsBigInt then maxBorrow * WAD / borrowAssetsBigInt
          else 0
        some { borrower := borrowerAddress
               collateral := collateral
               borrowShares := borrowShares
               borrowAssets := ((borrowAssetsBigInt : ℕ) : ℚ) / (WAD : ℚ)
               healthFactor := ((hfScaled : ℕ) : ℚ) / (WAD : ℚ)
               maxSeizable := collateral
               liquidationIncentive := 105 / 100 }

/-- handleCheckBorrower (src/unnamed/part_003 lines 408-427), acting on the
liquidatablePositions list: a null position check leaves the list unchanged;
otherwise the position replaces an existing entry with the same borrower
address (case-insensitively) or is appended. -/
def handleCheckBorrower (ps : List LiquidatablePosition)
    (pos : Option LiquidatablePosition) : List LiquidatablePosition :=
  match pos with
  | none => ps
  | some p =>
    if ps.any (fun q => q.borrower.toLower = p.borrower.toLower) then
      ps.map (fun q => if q.borrower.toLower = p.borrower.toLower then p else q)
    else ps ++ [p]

end Koracle

namespace Koracle

/-- Helper: clampHF is monotone. -/
theorem clampHF_mono {a b : ℚ} (h : a ≤ b) : clampHF a ≤ clampHF b := by
  unfold clampHF
  split_ifs <;> linarith

/-- ORACLE_PRICE_SCALE * WAD is positive. -/
theorem scale_pos : 0 < ORACLE_PRICE_SCALE * WAD := by
  unfold ORACLE_PRICE_SCALE WAD
  positivity

/-- C2: whenever the oracle price and the user position are both available,
the passive-display health factor of the existing position (the currentHF
effect) agrees with calculateHealthFactor called with zero proposed extra
borrow and zero proposed extra collateral: the two call sites either both
signal no-position (null) or both return the same number.  The hypothesis
records that the wei conversion of the displayed borrowAssets can only be
positive when the displayed value itself is positive (rounding a non-negative
display value cannot produce positive wei from a non-positive number). -/
theorem c2_display_gate_hf_agree (oraclePrice collateral : ℕ)
    (borrowAssetsPositive : Bool) (borrowAssetsBigInt : ℕ) (lltv : ℕ)
    (hconv : 0 < borrowAssetsBigInt → borrowAssetsPositive = true) :
    currentHFUpdate oraclePrice collateral borrowAssetsPositive borrowAssetsBigInt lltv =
      calculateHealthFactor oraclePrice collateral borrowAssetsBigInt 0 0 lltv := by
  unfold currentHFUpdate calculateHealthFactor
  by_cases hp : oraclePrice = 0
  · simp [hp]
  by_cases hb : borrowAssetsBigInt = 0
  · subst hb
    simp [hp]
  have hbpos : 0 < borrowAssetsBigInt := Nat.pos_of_ne_zero hb
  have hbp : borrowAssetsPositive = true := hconv hbpos
  by_cases hc : collateral = 0
  · subst hc
    simp [hp, hb, hbp]
  · have hcpos : 0 < collateral := Nat.pos_of_ne_zero hc
    simp [hp, hb, hc, hbp, hbpos, hcpos]

/-- C2 witness: concrete instance with oracle price 10^30, collateral 10^18
and borrow 10^18 wei. -/
theorem c2_display_gate_hf_agree_witness :
    currentHFUpdate (10 ^ 30) (10 ^ 18) true (10 ^ 18) LLTV =
      calculateHealthFactor (10 ^ 30) (10 ^ 18) (10 ^ 18) 0 0 LLTV :=
  c2_display_gate_hf_agree (10 ^ 30) (10 ^ 18) true (10 ^ 18) LLTV (fun _ => rfl)

/-- Helper: evaluation of calculateHealthFactor when every guard passes. -/
theorem calcHF_eval (oraclePrice existingCollateral existingBorrowBigInt
    newCollateralBigInt newBorrowBigInt lltv : ℕ)
    (hp : oraclePrice ≠ 0)
    (hc : existingCollateral + newCollateralBigInt ≠ 0)
    (hb : existingBorrowBigInt + newBorrowBigInt ≠ 0) :
    calculateHealthFactor oraclePrice existingCollateral existingBorrowBigInt
        newCollateralBigInt newBorrowBigInt lltv =
      some (clampHF ((((existingCollateral + newCollateralBigInt) * oraclePrice * lltv /
        (ORACLE_PRICE_SCALE * WAD)) * WAD / (existingBorrowBigInt + newBorrowBigInt) : ℕ) /
        (WAD : ℚ))) := by
  unfold calculateHealthFactor
  simp [hp, hc, hb]

/-- C3: for every input with the oracle price available and positive total
borrow and total collateral, calculateHealthFactor returns exactly the
specification formula: maxBorrow = totalCollateral * oraclePrice * lltv /
(ORACLE_SCALE * WAD); healthFactor = maxBorrow * WAD / totalBorrow, scaled to
a real number by 1/WAD, with results above 1000 clamped to 1000 and negative
results clamped to 0 (the non-finite case cannot arise from finite bigints). -/
theorem c3_health_factor_formula (oraclePrice existingCollateral existingBorrowBigInt
    newCollateralBigInt newBorrowBigInt lltv : ℕ)
    (hp : 0 < oraclePrice)
    (hcoll : 0 < existingCollateral + newCollateralBigInt)
    (hborrow : 0 < existingBorrowBigInt + newBorrowBigInt) :
    calculateHealthFactor oraclePrice existingCollateral existingBorrowBigInt
        newCollateralBigInt newBorrowBigInt lltv =
      some (healthFactorFormulaSpec (existingCollateral + newCollateralBigInt)
        (existingBorrowBigInt + newBorrowBigInt) oraclePrice lltv) := by
  unfold calculateHealthFactor healthFactorFormulaSpec clampHF
  simp [Nat.pos_iff_ne_zero.mp hp, Nat.pos_iff_ne_zero.mp hcoll,
    Nat.pos_iff_ne_zero.mp hborrow]

/-- C3 witness: collateral 5*10^18 wei, borrow 2*10^18 wei, oracle price
10^36, lltv 10^18 give health factor 5/2 by the spec formula. -/
theorem c3_health_factor_formula_witness :
    calculateHealthFactor (10 ^ 36) (5 * 10 ^ 18) (2 * 10 ^ 18) 0 0 (10 ^ 18) =
      some (healthFactorFormulaSpec (5 * 10 ^ 18 + 0) (2 * 10 ^ 18 + 0) (10 ^ 36) (10 ^ 18)) ∧
    healthFactorFormulaSpec (5 * 10 ^ 18 + 0) (2 * 10 ^ 18 + 0) (10 ^ 36) (10 ^ 18) = 5 / 2 :=
  ⟨c3_health_factor_formula (10 ^ 36) (5 * 10 ^ 18) (2 * 10 ^ 18) 0 0 (10 ^ 18)
    (by norm_num) (by norm_num) (by norm_num),
   by norm_num [healthFactorFormulaSpec, ORACLE_PRICE_SCALE, WAD]⟩

/-- C9: holding the other inputs fixed (valid inputs: positive oracle price,
positive total collateral, positive total borrow), the health factor returned
by calculateHealthFactor is monotonically decreasing in the total borrow
amount and monotonically increasing in the total collateral amount. -/
theorem c9_health_factor_monotone (oraclePrice lltv tc tc' tb tb' : ℕ)
    (hp : 0 < oraclePrice) (htc : 0 < tc) (htb : 0 < tb)
    (hcc : tc ≤ tc') (hbb : tb ≤ tb') :
    (∀ h h', calculateHealthFactor oraclePrice tc tb 0 0 lltv = some h →
      calculateHealthFactor oraclePrice tc tb' 0 0 lltv = some h' → h' ≤ h) ∧
    (∀ h h', calculateHealthFactor oraclePrice tc tb 0 0 lltv = some h →
      calculateHealthFactor oraclePrice tc' tb 0 0 lltv = some h' → h ≤ h') := by
  have wpos : (0 : ℚ) ≤ (WAD : ℚ) := by positivity
  constructor
  · intro h h' h1 h2
    rw [calcHF_eval _ _ _ _ _ _ (Nat.pos_iff_ne_zero.mp hp) (by omega) (by omega)] at h1 h2
    simp only [Nat.add_zero] at h1 h2
    obtain rfl := Option.some.inj h1
    obtain rfl := Option.some.inj h2
    apply clampHF_mono
    apply div_le_div_of_nonneg_right _ wpos
    have hnat : tc * oraclePrice * lltv / (ORACLE_PRICE_SCALE * WAD) * WAD / tb' ≤
        tc * oraclePrice * lltv / (ORACLE_PRICE_SCALE * WAD) * WAD / tb :=
      Nat.div_le_div_left hbb htb
    exact_mod_cast hnat
  · intro h h' h1 h2
    rw [calcHF_eval _ _ _ _ _ _ (Nat.pos_iff_ne_zero.mp hp) (by omega) (by omega)] at h1 h2
    simp only [Nat.add_zero] at h1 h2
    obtain rfl := Option.some.inj h1
    obtain rfl := Option.some.inj h2
    apply clampHF_mono
    apply div_le_div_of_nonneg_right _ wpos
    have hmul : tc * oraclePrice * lltv ≤ tc' * oraclePrice * lltv :=
      Nat.mul_le_mul_right _ (Nat.mul_le_mul_right _ hcc)
    have hnat : tc * oraclePrice * lltv / (ORACLE_PRICE_SCALE * WAD) * WAD / tb ≤
        tc' * oraclePrice * lltv / (ORACLE_PRICE_SCALE * WAD) * WAD / tb :=
      Nat.div_le_div_right (Nat.mul_le_mul_right _ (Nat.div_le_div_right hmul))
    exact_mod_cast hnat

/-- C9 witness: with oracle price 10^36 and lltv 10^18, collateral 2 and
borrow 1 give health factor 2; raising the borrow to 2 lowers it to 1. -/
theorem c9_health_factor_monotone_witness :
    calculateHealthFactor (10 ^ 36) 2 1 0 0 (10 ^ 18) = some 2 ∧
    calculateHealthFactor (10 ^ 36) 2 2 0 0 (10 ^ 18) = some 1 ∧
    (1 : ℚ) ≤ 2 := by
  have e1 : calculateHealthFactor (10 ^ 36) 2 1 0 0 (10 ^ 18) = some 2 := by
    norm_num [calculateHealthFactor, clampHF, ORACLE_PRICE_SCALE, WAD]
  have e2 : calculateHealthFactor (10 ^ 36) 2 2 0 0 (10 ^ 18) = some 1 := by
    norm_num [calculateHealthFactor, clampHF, ORACLE_PRICE_SCALE, WAD]
  exact ⟨e1, e2, (c9_health_factor_monotone (10 ^ 36) (10 ^ 18) 2 2 1 2
    (by norm_num) (by norm_num) (by norm_num) (le_refl 2) (by norm_num)).1 2 1 e1 e2⟩

/-- C1 counterexample: the claim as stated fails.  With the oracle price
unavailable, calculateHealthFactor signals no-position (none), so the
simulated Health Factor stored in the UI state is null; yet for a borrow
submission (selection UPETH_BORROW in supply mode) with existing collateral
5 * 10^18 and a valid input of 1 within the balance of 10, isButtonDisabled
returns false: the undefined simulated Health Factor passes the gate exactly
as an infinitely healthy position would, and the submit action stays
enabled. -/
theorem c1_undefined_hf_gate_counterexample :
    calculateHealthFactor 0 (5 * 10 ^ 18) 0 0 (10 ^ 18) LLTV = none ∧
    isButtonDisabled
      { isConnected := true
        isTxPending := false
        txStep := .idle
        executionStatus := .idle
        selection := some .UPETH_BORROW
        actionMode := .supply
        inputAmount := some 1
        collateralAmount := none
        simulatedHF := none
        userPosition := ⟨0, 0, 5 * 10 ^ 18, 0, 0⟩
        upethBalance := 10
        upkrwBalance := 0 } = false :=
  ⟨rfl, rfl⟩

/-- C1 (amended): for a borrow submission (selection UPETH_BORROW in supply
mode), if the simulated Health Factor is defined and below 1.0 the submit
action is disabled, and if there is neither existing nor newly entered
collateral the submit action is disabled; but an undefined simulated Health
Factor by itself (for example from a missing oracle price while existing
collateral is present) does not disable the submit action, as the
counterexample shows. -/
theorem c1_borrow_gate_amended (s : UIState)
    (hsel : s.selection = some .UPETH_BORROW) (hmode : s.actionMode = .supply) :
    (∀ h, s.simulatedHF = some h → h < 1 → isButtonDisabled s = true) ∧
    (s.userPosition.collateral = 0 → hasNewCollateral s = false →
      isButtonDisabled s = true) := by
  constructor
  · intro h hh hlt
    unfold isButtonDisabled
    split
    · rfl
    split
    · rfl
    split
    · rfl
    split
    · rfl
    cases hin : s.inputAmount with
    | none => rfl
    | some a =>
      split
      · rfl
      split
      · rfl
      split
      · rfl
      split
      · rw [hh]
        split
        · rfl
        · rename_i hcond
          exact absurd (decide_eq_true hlt) hcond
      · rename_i hcond
        exact absurd ⟨hsel, hmode⟩ hcond
  · intro hc0 hnc
    unfold isButtonDisabled
    split
    · rfl
    split
    · rfl
    split
    · rfl
    split
    · rfl
    cases hin : s.inputAmount with
    | none => rfl
    | some a =>
      split
      · rfl
      split
      · rfl
      split
      · rfl
      split
      · split
        · rfl
        split
        · rfl
        · rename_i hcond
          exact absurd ⟨hc0, hnc⟩ hcond
      · rename_i hcond
        exact absurd ⟨hsel, hmode⟩ hcond

/-- C1 witness for the amended gate: a simulated Health Factor of 1/2
disables the submit action. -/
theorem c1_borrow_gate_amended_witness :
    isButtonDisabled
      { isConnected := true
        isTxPending := false
        txStep := .idle
        executionStatus := .idle
        selection := some .UPETH_BORROW
        actionMode := .supply
        inputAmount := some 1
        collateralAmount := none
        simulatedHF := some (1 / 2)
        userPosition := ⟨0, 0, 5 * 10 ^ 18, 0, 0⟩
        upethBalance := 10
        upkrwBalance := 0 } = true :=
  (c1_borrow_gate_amended _ rfl rfl).1 (1 / 2) rfl (by norm_num)

/-- C4: for every liquidation execution against a freshly fetched borrower
position with an available oracle price, the requested repay amount is first
clamped to the borrower debt, the seize amount is
repayAmount * ORACLE_SCALE * 105 / (oraclePrice * 100) clamped to the posted
collateral; if the clamped seize amount is zero the flow aborts with an
explicit error and submits nothing, and otherwise the submitted seize amount
is the clamped value times 95 / 100. -/
theorem c4_liquidation_sizing (requestedRepay maxRepayAmount freshCollateral oraclePrice : ℕ)
    (hp : 0 < oraclePrice) :
    (executeLiquidationAfterApprove (some requestedRepay)
        (some (maxRepayAmount, freshCollateral)) oraclePrice = some .errorNothingToSeize ↔
      min freshCollateral
        (min requestedRepay maxRepayAmount * ORACLE_PRICE_SCALE * 105 / (oraclePrice * 100))
        = 0) ∧
    (∀ s, executeLiquidationAfterApprove (some requestedRepay)
        (some (maxRepayAmount, freshCollateral)) oraclePrice = some (.submitLiquidate s) →
      s = min freshCollateral
        (min requestedRepay maxRepayAmount * ORACLE_PRICE_SCALE * 105 / (oraclePrice * 100))
        * 95 / 100) := by
  have hp' : oraclePrice ≠ 0 := Nat.pos_iff_ne_zero.mp hp
  have hrep : (if maxRepayAmount < requestedRepay then maxRepayAmount else requestedRepay)
      = min requestedRepay maxRepayAmount := by split_ifs <;> omega
  have hseize : ∀ x : ℕ, (if freshCollateral < x then freshCollateral else x)
      = min freshCollateral x := by intro x; split_ifs <;> omega
  have key : executeLiquidationAfterApprove (some requestedRepay)
      (some (maxRepayAmount, freshCollateral)) oraclePrice =
      if min freshCollateral (min requestedRepay maxRepayAmount * ORACLE_PRICE_SCALE * 105 /
          (oraclePrice * 100)) = 0 then some .errorNothingToSeize
      else some (.submitLiquidate (min freshCollateral (min requestedRepay maxRepayAmount *
          ORACLE_PRICE_SCALE * 105 / (oraclePrice * 100)) * 95 / 100)) := by
    simp [executeLiquidationAfterApprove, hp', hrep, hseize]
  constructor
  · rw [key]
    split_ifs with h0
    · simp [h0]
    · simp [h0]
  · intro s hs
    rw [key] at hs
    split_ifs at hs with h0
    · simp at hs
    · simp only [Option.some.injEq, LiquidationResult.submitLiquidate.injEq] at hs
      exact hs.symm

/-- C4 witness: the scenario of the specification — borrower debt 2 ETH,
requested repay 5 ETH, collateral 10^18, oracle price 10^36 — clamps the
repay to the debt, clamps the seize to the collateral, and submits 95
percent of it. -/
theorem c4_liquidation_sizing_witness :
    executeLiquidationAfterApprove (some (5 * 10 ^ 18)) (some (2 * 10 ^ 18, 10 ^ 18))
      (10 ^ 36) = some (.submitLiquidate (95 * 10 ^ 16)) ∧
    95 * 10 ^ 16 = min (10 ^ 18)
      (min (5 * 10 ^ 18) (2 * 10 ^ 18) * ORACLE_PRICE_SCALE * 105 / (10 ^ 36 * 100))
      * 95 / 100 := by
  have he : executeLiquidationAfterApprove (some (5 * 10 ^ 18))
      (some (2 * 10 ^ 18, 10 ^ 18)) (10 ^ 36)
      = some (.submitLiquidate (95 * 10 ^ 16)) := by decide
  exact ⟨he, (c4_liquidation_sizing (5 * 10 ^ 18) (2 * 10 ^ 18) (10 ^ 18) (10 ^ 36)
    (by norm_num)).2 (95 * 10 ^ 16) he⟩

/-- C5: the full-repayment flag is set exactly when the entered amount is at
least the currently known debt in wei; a set flag makes the execution step
after approval call repay with assets 0 and shares equal to the user borrow
shares, and an unset flag makes it call repay with assets equal to the
entered amount and shares 0. -/
theorem c5_full_repay_flow (amount borrowAssetsWei borrowShares : ℕ)
    (hpos : 0 < amount) :
    ((startRepay amount borrowAssetsWei).isFullRepay = true ↔ borrowAssetsWei ≤ amount) ∧
    (borrowAssetsWei ≤ amount →
      repayCallAfterApprove (startRepay amount borrowAssetsWei) borrowShares
        = some (0, borrowShares)) ∧
    (amount < borrowAssetsWei →
      repayCallAfterApprove (startRepay amount borrowAssetsWei) borrowShares
        = some (amount, 0)) := by
  have hne : amount ≠ 0 := Nat.pos_iff_ne_zero.mp hpos
  refine ⟨by simp [startRepay], ?_, ?_⟩
  · intro hle
    simp [startRepay, repayCallAfterApprove, hne, hle]
  · intro hlt
    simp [startRepay, repayCallAfterApprove, hne, Nat.not_le_of_lt hlt]

/-- C5 witness: the full-repay scenario of the specification — debt 3 ETH in
wei, entered amount 3 ETH in wei — sets the flag and repays by shares. -/
theorem c5_full_repay_flow_witness :
    (startRepay (3 * 10 ^ 18) (3 * 10 ^ 18)).isFullRepay = true ∧
    repayCallAfterApprove (startRepay (3 * 10 ^ 18) (3 * 10 ^ 18)) 7
      = some (0, 7) := by
  have h := c5_full_repay_flow (3 * 10 ^ 18) (3 * 10 ^ 18) 7 (by norm_num)
  exact ⟨h.1.mpr (le_refl _), h.2.1 (le_refl _)⟩

/-- C6: with market data present, each derived asset amount is
shares * totalAssets / totalShares in truncating bigint arithmetic, divided
by 1e18 only as the last step; when the corresponding total shares are zero
the derived amount is 0 (and the embedding is total, so no exception is
possible). -/
theorem c6_assets_from_shares (supplyShares borrowShares collateral : ℕ)
    (m : MarketSnapshot) :
    (0 < m.totalSupplyShares →
      (updateUserPosition supplyShares borrowShares collateral m).supplyAssets =
        ((supplyShares * m.totalSupplyAssets / m.totalSupplyShares : ℕ) : ℚ) / (WAD : ℚ)) ∧
    (m.totalSupplyShares = 0 →
      (updateUserPosition supplyShares borrowShares collateral m).supplyAssets = 0) ∧
    (0 < m.totalBorrowShares →
      (updateUserPosition supplyShares borrowShares collateral m).borrowAssets =
        ((borrowShares * m.totalBorrowAssets / m.totalBorrowShares : ℕ) : ℚ) / (WAD : ℚ)) ∧
    (m.totalBorrowShares = 0 →
      (updateUserPosition supplyShares borrowShares collateral m).borrowAssets = 0) := by
  refine ⟨fun hs => ?_, fun hs => ?_, fun hb => ?_, fun hb => ?_⟩
  · simp [updateUserPosition, hs]
  · simp [updateUserPosition, hs]
  · simp [updateUserPosition, hb]
  · simp [updateUserPosition, hb]

/-- C6 witness: supply shares 10^18 against totals (6 * 10^18 assets,
2 * 10^18 shares) derive 3 displayed assets; zero total borrow shares derive
0 borrow assets. -/
theorem c6_assets_from_shares_witness :
    (updateUserPosition (10 ^ 18) 5 0 ⟨6 * 10 ^ 18, 2 * 10 ^ 18, 0, 0⟩).supplyAssets = 3 ∧
    (updateUserPosition (10 ^ 18) 5 0 ⟨6 * 10 ^ 18, 2 * 10 ^ 18, 0, 0⟩).borrowAssets = 0 := by
  have h := c6_assets_from_shares (10 ^ 18) 5 0 ⟨6 * 10 ^ 18, 2 * 10 ^ 18, 0, 0⟩
  refine ⟨?_, h.2.2.2 rfl⟩
  rw [h.1 (by norm_num)]
  norm_num [WAD]

/-- C7 counterexample: the claim as stated fails for on-chain reverts.  From
a state in approving with pending buffers (approved collateral 7, borrow
amount 3, full-repay flag set), the failed-receipt handler resets the step to
idle and surfaces an error, but leaves all three pending-amount buffers
untouched: the approved-collateral buffer is still 7, not 0. -/
theorem c7_tx_error_buffers_counterexample :
    (onTxError ⟨.approving, .broadcasting, .idle, 7, 3, true, none⟩).txStep = .idle ∧
    (onTxError ⟨.approving, .broadcasting, .idle, 7, 3, true, none⟩).approvedCollateral = 7 ∧
    (onTxError ⟨.approving, .broadcasting, .idle, 7, 3, true, none⟩).borrowAmount = 3 ∧
    (onTxError ⟨.approving, .broadcasting, .idle, 7, 3, true, none⟩).isFullRepay = true ∧
    ¬ (onTxError ⟨.approving, .broadcasting, .idle, 7, 3, true, none⟩).approvedCollateral = 0 :=
  ⟨rfl, rfl, rfl, rfl, by decide⟩

/-- C7 (amended): a wallet rejection (write error) resets every step variable
to idle, clears all three pending-amount buffers and surfaces a user-visible
error message; an on-chain revert (failed receipt) resets every step variable
to idle and surfaces a user-visible error message but leaves the
pending-amount buffers unchanged. -/
theorem c7_error_reset_amended (s : OrchestratorState) (userRejected : Bool) :
    ((onWriteError s userRejected).txStep = .idle ∧
     (onWriteError s userRejected).executionStatus = .idle ∧
     (onWriteError s userRejected).liquidateTxStep = .idle ∧
     (onWriteError s userRejected).approvedCollateral = 0 ∧
     (onWriteError s userRejected).borrowAmount = 0 ∧
     (onWriteError s userRejected).isFullRepay = false ∧
     (onWriteError s userRejected).errorMessage.isSome = true) ∧
    ((onTxError s).txStep = .idle ∧
     (onTxError s).executionStatus = .idle ∧
     (onTxError s).liquidateTxStep = .idle ∧
     (onTxError s).errorMessage = some "Transaction failed on chain" ∧
     (onTxError s).approvedCollateral = s.approvedCollateral ∧
     (onTxError s).borrowAmount = s.borrowAmount ∧
     (onTxError s).isFullRepay = s.isFullRepay) :=
  ⟨⟨rfl, rfl, rfl, rfl, rfl, rfl, rfl⟩, ⟨rfl, rfl, rfl, rfl, rfl, rfl, rfl⟩⟩

/-- C8 counterexample: the claim as stated fails.  A borrower with non-zero
debt below the dust threshold (borrow shares 10^13, market totals equal so
borrowAssets = 10^13 wei ≤ 10^14) withdrawing 9 of 10 collateral leaves
remaining collateral 1, whose maxBorrow at oracle price 10^30 is 0, strictly
below the debt — yet the code skips the health-factor check for dust debt and
submits the withdrawCollateral transaction instead of rejecting. -/
theorem c8_dust_debt_counterexample :
    executeWithdrawCollateral 9 (10 ^ 13) 10 (10 ^ 30)
      (some ⟨0, 0, 10 ^ 20, 10 ^ 20⟩) LLTV = .submitWithdraw 9 ∧
    0 < (10 ^ 13 : ℕ) ∧
    (10 - 9) * 10 ^ 30 * LLTV / (ORACLE_PRICE_SCALE * WAD)
      < 10 ^ 13 * 10 ^ 20 / 10 ^ 20 := by
  refine ⟨by decide, by norm_num, by decide⟩

/-- C8 (amended): for a collateral withdrawal evaluated against the freshly
fetched position, if the debt (borrow shares) is non-zero and the requested
amount reaches or exceeds the available collateral, the withdrawal is
rejected outright with no transaction; and if additionally the oracle price
and market data are available, the derived debt exceeds the dust threshold
of 10^14 wei, and the debt exceeds maxBorrow of the remaining collateral,
the withdrawal is rejected with an explicit health-factor message and no
transaction — the health-factor rejection does not apply when the derived
debt is dust (at most 10^14 wei) or when the oracle price or market data are
unavailable. -/
theorem c8_withdraw_guard_amended (amount freshBorrowShares freshCollateral oraclePrice
    lltv : ℕ) (m : MarketSnapshot) :
    (∀ market : Option MarketSnapshot, 0 < freshBorrowShares →
      freshCollateral ≤ amount →
      executeWithdrawCollateral amount freshBorrowShares freshCollateral oraclePrice
        market lltv = .errorDebtRemaining) ∧
    (0 < freshBorrowShares → amount < freshCollateral → 0 < amount → 0 < oraclePrice →
      10 ^ 14 < freshBorrowShares * m.totalBorrowAssets / m.totalBorrowShares →
      (freshCollateral - amount) * oraclePrice * lltv / (ORACLE_PRICE_SCALE * WAD) <
        freshBorrowShares * m.totalBorrowAssets / m.totalBorrowShares →
      executeWithdrawCollateral amount freshBorrowShares freshCollateral oraclePrice
        (some m) lltv = .errorHealthFactor) := by
  constructor
  · intro market hshares hge
    unfold executeWithdrawCollateral
    simp [hshares, hge]
  · intro hshares hlt hamt hp hdust hviol
    unfold executeWithdrawCollateral
    have h1 : ¬ (0 < freshBorrowShares ∧ freshCollateral ≤ amount) := by omega
    have h2 : ¬ (freshCollateral < amount) := by omega
    simp only [h1, if_false, h2, ite_false]
    have h3 : ¬ (amount = 0) := by omega
    simp only [h3, if_false, ite_false]
    have hdust2 : (100000000000000 : ℕ) <
        freshBorrowShares * m.totalBorrowAssets / m.totalBorrowShares := by
      calc (100000000000000 : ℕ) = 10 ^ 14 := by norm_num
        _ < _ := hdust
    simp [hshares, hp, hdust, hdust2, hviol]

/-- C8 witness for the amended guard: withdrawing 5 of 5 collateral with debt
outstanding is rejected outright, and withdrawing 1 of 2 with a
10^15-wei debt whose remaining-collateral maxBorrow is 0 is rejected by the
health-factor check. -/
theorem c8_withdraw_guard_amended_witness :
    executeWithdrawCollateral 5 1 5 0 none LLTV = .errorDebtRemaining ∧
    executeWithdrawCollateral 1 (10 ^ 15) 2 1 (some ⟨0, 0, 10 ^ 18, 10 ^ 18⟩) LLTV
      = .errorHealthFactor := by
  constructor
  · exact (c8_withdraw_guard_amended 5 1 5 0 LLTV ⟨0, 0, 0, 0⟩).1 none
      (by norm_num) (le_refl 5)
  · exact (c8_withdraw_guard_amended 1 (10 ^ 15) 2 1 LLTV ⟨0, 0, 10 ^ 18, 10 ^ 18⟩).2
      (by norm_num) (by norm_num) (by norm_num) (by norm_num) (by decide) (by decide)

/-- C10: a queried borrower whose borrow shares are zero yields null from
checkBorrowerPosition, so handleCheckBorrower leaves the
liquidatable-positions list unchanged: the borrower is never added and never
overwrites an existing entry. -/
theorem c10_zero_debt_not_listed (oraclePrice : ℕ) (market : Option MarketSnapshot)
    (borrowerAddress : String) (collateral lltv : ℕ)
    (ps : List LiquidatablePosition) :
    checkBorrowerPosition oraclePrice market borrowerAddress 0 collateral lltv = none ∧
    handleCheckBorrower ps
      (checkBorrowerPosition oraclePrice market borrowerAddress 0 collateral lltv) = ps := by
  have h : checkBorrowerPosition oraclePrice market borrowerAddress 0 collateral lltv
      = none := by
    unfold checkBorrowerPosition
    cases market with
    | none => split <;> rfl
    | some m => split_ifs <;> simp_all
  exact ⟨h, by rw [h]; rfl⟩

end Koracle
